import Mathlib

/-!
Shallow embedding of a three-stage image-classification pipeline made of
three AWS Lambda handlers:

* `SerializeImageData.lambda_handler` (the Loader) — fetches an object from
  storage and base64-encodes it into an envelope;
* `Classifier.lambda_handler` — base64-decodes the payload, invokes the
  inference capability and attaches the parsed score list;
* `FilterConfidence.lambda_handler` (the Gate) — compares the maximum
  confidence score against a fixed threshold and either passes the event
  through (JSON-serialized) or raises a terminal error.

External capabilities (object storage, the inference endpoint together with
the JSON parse of its response, and `json.dumps`) are passed as function
parameters; everything the handlers themselves compute — in particular
Python's `base64.b64encode` and the lenient `base64.b64decode`
(`binascii.a2b_base64` in non-strict mode), and Python's `max` — is embedded
as executable Lean definitions.
-/

/-! ## Python base64: `base64.b64encode` and lenient `base64.b64decode` -/

/-- The standard base64 alphabet, index 0–63 (`A`–`Z`, `a`–`z`, `0`–`9`, `+`, `/`). -/
def b64alphabet : List Char :=
  ['A', 'B', 'C', 'D', 'E', 'F', 'G', 'H', 'I', 'J', 'K', 'L', 'M',
   'N', 'O', 'P', 'Q', 'R', 'S', 'T', 'U', 'V', 'W', 'X', 'Y', 'Z',
   'a', 'b', 'c', 'd', 'e', 'f', 'g', 'h', 'i', 'j', 'k', 'l', 'm',
   'n', 'o', 'p', 'q', 'r', 's', 't', 'u', 'v', 'w', 'x', 'y', 'z',
   '0', '1', '2', '3', '4', '5', '6', '7', '8', '9', '+', '/']

/-- Encoding table `table_b2a_base64`: 6-bit value to alphabet character. -/
def b64tbl (n : Nat) : Char := b64alphabet.getD n '?'

/-- Decoding table `table_a2b_base64`: `some` 6-bit value for an alphabet
character, `none` for every other character (which the lenient decoder
skips). -/
def a2bChar (c : Char) : Option Nat :=
  if c ∈ b64alphabet then some (b64alphabet.indexOf c) else none

/-- `base64.b64encode`: bytes to base64 characters, three input bytes per
four output characters, the final group padded with `=`. -/
def b2aChars : List Nat → List Char
  | [] => []
  | [b0] => [b64tbl (b0 / 4), b64tbl (b0 % 4 * 16), '=', '=']
  | [b0, b1] => [b64tbl (b0 / 4), b64tbl (b0 % 4 * 16 + b1 / 16),
                 b64tbl (b1 % 16 * 4), '=']
  | b0 :: b1 :: b2 :: rest =>
      b64tbl (b0 / 4) :: b64tbl (b0 % 4 * 16 + b1 / 16) ::
      b64tbl (b1 % 16 * 4 + b2 / 64) :: b64tbl (b2 % 64) :: b2aChars rest

/-- Errors of the lenient decoder `binascii.a2b_base64` (non-strict mode),
plus the ASCII check `str.encode` performs when a `str` is decoded. -/
inductive B64Error where
  | nonAscii
  | invalidLength
  | invalidPadding
deriving DecidableEq

/-- The main loop of `binascii.a2b_base64` in non-strict mode: characters
outside the alphabet are skipped; a pad character `=` while at least two data
characters of the current quad are present and enough pads have accumulated
ends decoding successfully; a trailing partial quad of one data character is
`invalidLength` and of two or three is `invalidPadding`. -/
def a2bLoop : List Char → Nat → Nat → Nat → List Nat →
    Except B64Error (List Nat)
  | [], quadPos, _, _, acc =>
      if quadPos = 0 then .ok acc
      else if quadPos = 1 then .error .invalidLength
      else .error .invalidPadding
  | c :: rest, quadPos, leftchar, pads, acc =>
      if c = '=' then
        if 2 ≤ quadPos then
          if 4 ≤ quadPos + (pads + 1) then .ok acc
          else a2bLoop rest quadPos leftchar (pads + 1) acc
        else a2bLoop rest quadPos leftchar pads acc
      else
        match a2bChar c with
        | none => a2bLoop rest quadPos leftchar pads acc
        | some v =>
          match quadPos with
          | 0 => a2bLoop rest 1 v 0 acc
          | 1 => a2bLoop rest 2 (v % 16) 0 (acc ++ [leftchar * 4 + v / 16])
          | 2 => a2bLoop rest 3 (v % 4) 0 (acc ++ [leftchar * 16 + v / 4])
          | _ => a2bLoop rest 0 0 0 (acc ++ [leftchar * 64 + v])

/-- `base64.b64decode` on a character sequence (lenient, non-strict mode). -/
def pyB64decodeChars (s : List Char) : Except B64Error (List Nat) :=
  a2bLoop s 0 0 0 []

/-- A base64 character sequence is valid base64 when it is the encoding of
some byte sequence. -/
def validB64 (s : List Char) : Prop :=
  ∃ bytes : List Nat, (∀ b ∈ bytes, b < 256) ∧ b2aChars bytes = s

/-! ### Table facts -/

theorem a2bChar_b64tbl (n : Nat) (h : n < 64) : a2bChar (b64tbl n) = some n := by
  have hall : ∀ m : Fin 64, a2bChar (b64tbl m.val) = some m.val := by decide
  exact hall ⟨n, h⟩

theorem a2bChar_eq_char : a2bChar '=' = none := by decide

theorem b64tbl_ne_pad (n : Nat) (h : n < 64) : b64tbl n ≠ '=' := by
  intro he
  have h1 := a2bChar_b64tbl n h
  rw [he, a2bChar_eq_char] at h1
  exact Option.noConfusion h1

/-! ### Round trip: decoding an encoded byte sequence -/

theorem a2bLoop_quad (v0 v1 v2 v3 : Nat) (h0 : v0 < 64) (h1 : v1 < 64)
    (h2 : v2 < 64) (h3 : v3 < 64) (rest : List Char) (acc : List Nat) :
    a2bLoop (b64tbl v0 :: b64tbl v1 :: b64tbl v2 :: b64tbl v3 :: rest) 0 0 0 acc
      = a2bLoop rest 0 0 0
          (acc ++ [v0 * 4 + v1 / 16, v1 % 16 * 16 + v2 / 4, v2 % 4 * 64 + v3]) := by
  have e0 := a2bChar_b64tbl v0 h0
  have e1 := a2bChar_b64tbl v1 h1
  have e2 := a2bChar_b64tbl v2 h2
  have e3 := a2bChar_b64tbl v3 h3
  have n0 := b64tbl_ne_pad v0 h0
  have n1 := b64tbl_ne_pad v1 h1
  have n2 := b64tbl_ne_pad v2 h2
  have n3 := b64tbl_ne_pad v3 h3
  simp [a2bLoop, e0, e1, e2, e3, n0, n1, n2, n3]

theorem a2bLoop_tail1 (b0 : Nat) (h : b0 < 256) (acc : List Nat) :
    a2bLoop (b2aChars [b0]) 0 0 0 acc = .ok (acc ++ [b0]) := by
  have e0 := a2bChar_b64tbl (b0 / 4) (by omega)
  have e1 := a2bChar_b64tbl (b0 % 4 * 16) (by omega)
  have n0 := b64tbl_ne_pad (b0 / 4) (by omega)
  have n1 := b64tbl_ne_pad (b0 % 4 * 16) (by omega)
  simp only [b2aChars]
  simp [a2bLoop, e0, e1, n0, n1]
  omega

theorem a2bLoop_tail2 (b0 b1 : Nat) (h0 : b0 < 256) (h1 : b1 < 256)
    (acc : List Nat) :
    a2bLoop (b2aChars [b0, b1]) 0 0 0 acc = .ok (acc ++ [b0, b1]) := by
  have e0 := a2bChar_b64tbl (b0 / 4) (by omega)
  have e1 := a2bChar_b64tbl (b0 % 4 * 16 + b1 / 16) (by omega)
  have e2 := a2bChar_b64tbl (b1 % 16 * 4) (by omega)
  have n0 := b64tbl_ne_pad (b0 / 4) (by omega)
  have n1 := b64tbl_ne_pad (b0 % 4 * 16 + b1 / 16) (by omega)
  have n2 := b64tbl_ne_pad (b1 % 16 * 4) (by omega)
  simp only [b2aChars]
  simp [a2bLoop, e0, e1, e2, n0, n1, n2]
  constructor
  all_goals omega

theorem a2bLoop_b2aChars (bytes : List Nat) (h : ∀ b ∈ bytes, b < 256)
    (acc : List Nat) :
    a2bLoop (b2aChars bytes) 0 0 0 acc = .ok (acc ++ bytes) := by
  match bytes with
  | [] => simp [b2aChars, a2bLoop]
  | [b0] => exact a2bLoop_tail1 b0 (h b0 (by simp)) acc
  | [b0, b1] => exact a2bLoop_tail2 b0 b1 (h b0 (by simp)) (h b1 (by simp)) acc
  | b0 :: b1 :: b2 :: rest =>
    have hb0 : b0 < 256 := h b0 (by simp)
    have hb1 : b1 < 256 := h b1 (by simp)
    have hb2 : b2 < 256 := h b2 (by simp)
    have hrest : ∀ b ∈ rest, b < 256 := fun b hb => h b (by simp [hb])
    have hq := a2bLoop_quad (b0 / 4) (b0 % 4 * 16 + b1 / 16)
      (b1 % 16 * 4 + b2 / 64) (b2 % 64) (by omega) (by omega) (by omega)
      (by omega) (b2aChars rest) acc
    have hv0 : b0 / 4 * 4 + (b0 % 4 * 16 + b1 / 16) / 16 = b0 := by omega
    have hv1 : (b0 % 4 * 16 + b1 / 16) % 16 * 16 +
        (b1 % 16 * 4 + b2 / 64) / 4 = b1 := by omega
    have hv2 : (b1 % 16 * 4 + b2 / 64) % 4 * 64 + b2 % 64 = b2 := by omega
    have ih := a2bLoop_b2aChars rest hrest (acc ++ [b0, b1, b2])
    simp only [b2aChars]
    rw [hq, hv0, hv1, hv2, ih]
    simp
termination_by bytes.length

/-- Round trip: the lenient decoder inverts the encoder on every byte
sequence. -/
theorem pyB64decodeChars_b2aChars (bytes : List Nat)
    (h : ∀ b ∈ bytes, b < 256) :
    pyB64decodeChars (b2aChars bytes) = .ok bytes := by
  have := a2bLoop_b2aChars bytes h []
  simpa [pyB64decodeChars] using this

theorem a2bChar_isSome_b64tbl (n : Nat) (h : n < 64) :
    (a2bChar (b64tbl n)).isSome := by
  rw [a2bChar_b64tbl n h]
  rfl

/-- Every character an encoding produces is an alphabet character or a pad. -/
theorem mem_b2aChars (bytes : List Nat) (h : ∀ b ∈ bytes, b < 256) :
    ∀ c ∈ b2aChars bytes, (a2bChar c).isSome ∨ c = '=' := by
  match bytes with
  | [] => simp [b2aChars]
  | [b0] =>
    have hb0 : b0 < 256 := h b0 (by simp)
    intro c hc
    simp only [b2aChars, List.mem_cons, List.not_mem_nil, or_false] at hc
    rcases hc with hc | hc | hc | hc
    · exact Or.inl (hc ▸ a2bChar_isSome_b64tbl _ (by omega))
    · exact Or.inl (hc ▸ a2bChar_isSome_b64tbl _ (by omega))
    · exact Or.inr hc
    · exact Or.inr hc
  | [b0, b1] =>
    have hb0 : b0 < 256 := h b0 (by simp)
    have hb1 : b1 < 256 := h b1 (by simp)
    intro c hc
    simp only [b2aChars, List.mem_cons, List.not_mem_nil, or_false] at hc
    rcases hc with hc | hc | hc | hc
    · exact Or.inl (hc ▸ a2bChar_isSome_b64tbl _ (by omega))
    · exact Or.inl (hc ▸ a2bChar_isSome_b64tbl _ (by omega))
    · exact Or.inl (hc ▸ a2bChar_isSome_b64tbl _ (by omega))
    · exact Or.inr hc
  | b0 :: b1 :: b2 :: rest =>
    have hb0 : b0 < 256 := h b0 (by simp)
    have hb1 : b1 < 256 := h b1 (by simp)
    have hb2 : b2 < 256 := h b2 (by simp)
    have hrest : ∀ b ∈ rest, b < 256 := fun b hb => h b (by simp [hb])
    have ih := mem_b2aChars rest hrest
    intro c hc
    simp only [b2aChars, List.mem_cons] at hc
    rcases hc with hc | hc | hc | hc | hc
    · exact Or.inl (hc ▸ a2bChar_isSome_b64tbl _ (by omega))
    · exact Or.inl (hc ▸ a2bChar_isSome_b64tbl _ (by omega))
    · exact Or.inl (hc ▸ a2bChar_isSome_b64tbl _ (by omega))
    · exact Or.inl (hc ▸ a2bChar_isSome_b64tbl _ (by omega))
    · exact ih c hc
termination_by bytes.length

/-- The string of four exclamation marks is not valid base64. -/
theorem not_validB64_bangs : ¬ validB64 ['!', '!', '!', '!'] := by
  rintro ⟨bytes, hlt, henc⟩
  have hmem : '!' ∈ b2aChars bytes := by rw [henc]; simp
  rcases mem_b2aChars bytes hlt '!' hmem with hs | he
  · rw [show a2bChar '!' = none from by decide] at hs
    exact Bool.noConfusion hs
  · exact absurd he (by decide)

/-! ## Data model: the Envelope -/

/-- A Python value carried in the `image_data` field: either a text string
(`str`) or a bytes object (`bytes`, shown by its ASCII characters — the only
bytes value the pipeline constructs is base64 output, which is ASCII). -/
inductive PayloadVal where
  | str (s : List Char)
  | bytes (b : List Char)
deriving DecidableEq

/-- The character content of a payload value. -/
def PayloadVal.chars : PayloadVal → List Char
  | .str s => s
  | .bytes b => b

/-- `base64.b64decode` applied to a Python value: a `str` is first
ASCII-encoded (raising on non-ASCII characters), a bytes object is decoded
directly; both then run the lenient decoder. -/
def pyB64decodeVal : PayloadVal → Except B64Error (List Nat)
  | .str s =>
      if s.all (fun c => c.toNat < 128) then a2bLoop s 0 0 0 []
      else .error .nonAscii
  | .bytes b => a2bLoop b 0 0 0 []

/-- One entry of the score list `json.loads` produced from the inference
response: a number, or a non-numeric JSON value (such as a string). -/
inductive ScoreItem where
  | num (q : ℚ)
  | nonNum (s : String)
deriving DecidableEq

/-- The envelope dict passed between the stages: the Loader produces it, the
Classifier reads and re-emits it with `inferences` replaced. -/
structure Envelope where
  image_data : PayloadVal
  s3_bucket : String
  s3_key : String
  inferences : List ScoreItem
deriving DecidableEq

/-- Success test for a stage outcome. -/
def isOkExcept {ε α : Type} : Except ε α → Bool
  | .ok _ => true
  | .error _ => false

/-! ## Loader: `SerializeImageData.lambda_handler` -/

namespace SerializeImageData

/-- Failure modes of the storage capability `fetch(bucket, key) -> bytes`. -/
inductive StorageError where
  | notFound
  | accessDenied
  | ioError
deriving DecidableEq

/-- The Loader event: a dict with `s3_bucket` and `s3_key`. -/
structure LoaderEvent where
  s3_bucket : String
  s3_key : String
deriving DecidableEq

/-- The Loader result: `statusCode` plus the envelope dict body. -/
structure LoaderResult where
  statusCode : Nat
  body : Envelope
deriving DecidableEq

/-- The `SerializeImageData` handler: extract bucket and key, fetch the
object bytes (the S3 download to `/tmp/image.png` plus the file read, taken
together as the `fetch` capability), base64-encode them — note
`base64.b64encode` returns a bytes object — and return the envelope with an
empty inference list. -/
def lambda_handler
    (fetch : String → String → Except StorageError (List Nat))
    (event : LoaderEvent) : Except StorageError LoaderResult :=
  let key := event.s3_key
  let bucket := event.s3_bucket
  match fetch bucket key with
  | .error e => .error e
  | .ok imageBytes =>
      .ok { statusCode := 200,
            body := { image_data := .bytes (b2aChars imageBytes),
                      s3_bucket := bucket,
                      s3_key := key,
                      inferences := [] } }

end SerializeImageData

/-! ## Classifier: `Classifier.lambda_handler` -/

namespace Classifier

/-- The SageMaker endpoint name hard-coded in the source. -/
def ENDPOINT_NAME : String := "image-classification-2024-12-22-09-40-10-368"

/-- Failure modes of the inference capability (the endpoint invocation,
the response read and the `json.loads` parse, taken together). -/
inductive InferError where
  | unavailable
  | malformedResponse
deriving DecidableEq

/-- Errors the Classifier stage can raise: a base64 decode error
(`binascii.Error` / `UnicodeEncodeError`) or an inference-capability error. -/
inductive ClassifierError where
  | binascii (e : B64Error)
  | infer (e : InferError)
deriving DecidableEq

/-- The Classifier event: a dict whose `body` key holds the envelope. -/
structure ClassifierEvent where
  body : Envelope
deriving DecidableEq

/-- The Classifier result: `statusCode` plus the envelope dict body. -/
structure ClassifierResult where
  statusCode : Nat
  body : Envelope
deriving DecidableEq

/-- The `Classifier` handler: decode `event["body"]["image_data"]` from
base64, invoke the endpoint with content type `image/png` on the decoded
bytes (`invoke_endpoint` here covers the endpoint call, the response read and
`json.loads`), and return the envelope fields echoed with the parsed
`inferences` attached. -/
def lambda_handler
    (invoke_endpoint :
      String → String → List Nat → Except InferError (List ScoreItem))
    (event : ClassifierEvent) : Except ClassifierError ClassifierResult :=
  match pyB64decodeVal event.body.image_data with
  | .error e => .error (.binascii e)
  | .ok image =>
    match invoke_endpoint ENDPOINT_NAME "image/png" image with
    | .error e => .error (.infer e)
    | .ok inferences =>
        .ok { statusCode := 200,
              body := { image_data := event.body.image_data,
                        s3_bucket := event.body.s3_bucket,
                        s3_key := event.body.s3_key,
                        inferences := inferences } }

end Classifier

/-! ## Gate: `FilterConfidence.lambda_handler` -/

namespace FilterConfidence

/-- Confidence threshold for inferences (`THRESHOLD = .93`). -/
def THRESHOLD : ℚ := 93 / 100

/-- Errors the Gate stage can raise: the `ValueError` Python's `max` raises
on an empty sequence, and the terminal condition the source raises as
`raise("THRESHOLD_CONFIDENCE_NOT_MET")` when the threshold is not met. -/
inductive GateError where
  | valueError_empty_max
  | threshold_not_met (msg : String)
deriving DecidableEq

/-- The envelope as the Gate sees it after the orchestrator's JSON transport:
`image_data` is a JSON string and `inferences` a list of numbers. -/
structure GateEnvelope where
  image_data : String
  s3_bucket : String
  s3_key : String
  inferences : List ℚ
deriving DecidableEq

/-- The Gate event: a dict whose `body` key holds the envelope. -/
structure GateEvent where
  body : GateEnvelope
deriving DecidableEq

/-- The Gate result body: the source returns `json.dumps(event)`, a string,
although a dict body (as the other stages return) is also representable. -/
inductive GateBody where
  | str (s : String)
  | dict (e : GateEnvelope)
deriving DecidableEq

/-- The Gate result: `statusCode` plus the body value. -/
structure GateResult where
  statusCode : Nat
  body : GateBody
deriving DecidableEq

/-- Python `max` on a list of numbers: raises `ValueError` on an empty
sequence, otherwise keeps the running maximum (replacing it only on a
strictly larger element). -/
def pyMax : List ℚ → Except GateError ℚ
  | [] => .error .valueError_empty_max
  | x :: xs => .ok (xs.foldl (fun m y => if m < y then y else m) x)

/-- The `FilterConfidence` handler: read `event["body"]["inferences"]`,
compare their maximum against THRESHOLD with a strict `>`, and either return
`statusCode` 200 with body `json.dumps(event)` (the `dumps` capability) or
raise the terminal error. -/
def lambda_handler (dumps : GateEvent → String) (event : GateEvent) :
    Except GateError GateResult :=
  match pyMax event.body.inferences with
  | .error e => .error e
  | .ok m =>
    let meets_threshold := THRESHOLD < m
    if meets_threshold then
      .ok { statusCode := 200, body := .str (dumps event) }
    else
      .error (.threshold_not_met "THRESHOLD_CONFIDENCE_NOT_MET")

end FilterConfidence

/-- The fold Python `max` performs agrees with the maximum of the list. -/
theorem pyMax_cons (x : ℚ) (xs : List ℚ) :
    FilterConfidence.pyMax (x :: xs) = .ok (xs.foldl max x) := by
  have hfun : (fun (m y : ℚ) => if m < y then y else m) = max := by
    funext m y
    rcases le_or_lt y m with h | h
    · rw [if_neg (not_lt.mpr h), max_eq_left h]
    · rw [if_pos h, max_eq_right h.le]
  simp [FilterConfidence.pyMax, hfun]

/-- Helper: evaluation of the Gate on an event whose scores pass. -/
theorem gate_eval_pass (dumps : FilterConfidence.GateEvent → String)
    (event : FilterConfidence.GateEvent) (x : ℚ) (xs : List ℚ)
    (h : event.body.inferences = x :: xs)
    (hgt : FilterConfidence.THRESHOLD < xs.foldl max x) :
    FilterConfidence.lambda_handler dumps event
      = .ok ⟨200, .str (dumps event)⟩ := by
  simp [FilterConfidence.lambda_handler, h, pyMax_cons, hgt]

/-- Helper: evaluation of the Gate on an event whose scores do not pass. -/
theorem gate_eval_fail (dumps : FilterConfidence.GateEvent → String)
    (event : FilterConfidence.GateEvent) (x : ℚ) (xs : List ℚ)
    (h : event.body.inferences = x :: xs)
    (hle : xs.foldl max x ≤ FilterConfidence.THRESHOLD) :
    FilterConfidence.lambda_handler dumps event
      = .error (.threshold_not_met "THRESHOLD_CONFIDENCE_NOT_MET") := by
  simp [FilterConfidence.lambda_handler, h, pyMax_cons, not_lt.mpr hle]

/-! ## Claims about the Gate -/

/-- Claim C1: for every Gate event whose confidence scores are non-empty, the
Gate succeeds if and only if the maximum of the scores strictly exceeds the
0.93 threshold; a maximum exactly equal to the threshold does not pass. -/
theorem gate_succeeds_iff_max_gt_threshold
    (dumps : FilterConfidence.GateEvent → String)
    (event : FilterConfidence.GateEvent) (x : ℚ) (xs : List ℚ)
    (h : event.body.inferences = x :: xs) :
    isOkExcept (FilterConfidence.lambda_handler dumps event) = true ↔
      FilterConfidence.THRESHOLD < xs.foldl max x := by
  have hm := pyMax_cons x xs
  by_cases hc : FilterConfidence.THRESHOLD < xs.foldl max x
  · simp [FilterConfidence.lambda_handler, h, hm, hc, isOkExcept]
  · simp [FilterConfidence.lambda_handler, h, hm, hc, isOkExcept]

/-- Witness for C1 at the two boundary examples: scores `[0.2, 0.95, 0.1]`
pass, scores `[0.5, 0.93, 0.4]` (maximum exactly the threshold) do not. -/
theorem gate_succeeds_iff_max_gt_threshold_witness :
    isOkExcept (FilterConfidence.lambda_handler (fun _ => "")
      ⟨⟨"img", "b", "k", [1/5, 19/20, 1/10]⟩⟩) = true ∧
    ¬ isOkExcept (FilterConfidence.lambda_handler (fun _ => "")
      ⟨⟨"img", "b", "k", [1/2, 93/100, 2/5]⟩⟩) = true := by
  constructor
  · exact (gate_succeeds_iff_max_gt_threshold (fun _ => "") _ _ _ rfl).mpr
      (by norm_num [FilterConfidence.THRESHOLD, max_def])
  · intro hok
    have hgt := (gate_succeeds_iff_max_gt_threshold (fun _ => "") _ _ _
      rfl).mp hok
    norm_num [FilterConfidence.THRESHOLD, max_def] at hgt

/-- Claim C2: on non-empty scores whose maximum does not strictly exceed the
threshold, the Gate raises the distinct, named terminal error (the raised
`THRESHOLD_CONFIDENCE_NOT_MET` condition), never a success result; that
error is distinct from the empty-scores error. -/
theorem gate_threshold_not_met
    (dumps : FilterConfidence.GateEvent → String)
    (event : FilterConfidence.GateEvent) (x : ℚ) (xs : List ℚ)
    (h : event.body.inferences = x :: xs)
    (hle : xs.foldl max x ≤ FilterConfidence.THRESHOLD) :
    FilterConfidence.lambda_handler dumps event
        = .error (.threshold_not_met "THRESHOLD_CONFIDENCE_NOT_MET") ∧
      (∀ r, FilterConfidence.lambda_handler dumps event ≠ .ok r) ∧
      (∀ msg, FilterConfidence.GateError.threshold_not_met msg ≠
        .valueError_empty_max) := by
  have hm := pyMax_cons x xs
  have hc : ¬ FilterConfidence.THRESHOLD < xs.foldl max x := not_lt.mpr hle
  have heq : FilterConfidence.lambda_handler dumps event
      = .error (.threshold_not_met "THRESHOLD_CONFIDENCE_NOT_MET") := by
    simp [FilterConfidence.lambda_handler, h, hm, hc]
  refine ⟨heq, fun r hr => ?_, fun msg hne =>
    FilterConfidence.GateError.noConfusion hne⟩
  rw [heq] at hr
  exact Except.noConfusion hr

/-- Witness for C2 at scores `[0.5, 0.93, 0.4]`. -/
theorem gate_threshold_not_met_witness :
    FilterConfidence.lambda_handler (fun _ => "")
        ⟨⟨"img", "b", "k", [1/2, 93/100, 2/5]⟩⟩
      = .error (.threshold_not_met "THRESHOLD_CONFIDENCE_NOT_MET") :=
  (gate_threshold_not_met (fun _ => "") _ _ _ rfl
    (by norm_num [FilterConfidence.THRESHOLD, max_def])).1

/-- Claim C7: on empty confidence scores the Gate fails with the error of
`max` on an empty sequence (the contract-violation failure), which is
distinct from the threshold error, and never returns a success result. -/
theorem gate_empty_scores_fails
    (dumps : FilterConfidence.GateEvent → String)
    (event : FilterConfidence.GateEvent)
    (h : event.body.inferences = []) :
    FilterConfidence.lambda_handler dumps event
        = .error .valueError_empty_max ∧
      (∀ r, FilterConfidence.lambda_handler dumps event ≠ .ok r) ∧
      (∀ msg, FilterConfidence.GateError.valueError_empty_max ≠
        .threshold_not_met msg) := by
  have heq : FilterConfidence.lambda_handler dumps event
      = .error .valueError_empty_max := by
    simp [FilterConfidence.lambda_handler, h, FilterConfidence.pyMax]
  refine ⟨heq, fun r hr => ?_, fun msg hne =>
    FilterConfidence.GateError.noConfusion hne⟩
  rw [heq] at hr
  exact Except.noConfusion hr

/-- Witness for C7 at an envelope with an empty score list. -/
theorem gate_empty_scores_fails_witness :
    FilterConfidence.lambda_handler (fun _ => "") ⟨⟨"img", "b", "k", []⟩⟩
      = .error .valueError_empty_max :=
  (gate_empty_scores_fails (fun _ => "") _ rfl).1

/-- Claim C10: the Gate's decision depends only on the maximum of the
scores: two events with non-empty score lists of equal maxima — whatever the
lengths, order, other elements, or out-of-range elements — get the same
pass/fail decision. -/
theorem gate_decision_only_max
    (d1 d2 : FilterConfidence.GateEvent → String)
    (ev1 ev2 : FilterConfidence.GateEvent) (x1 x2 : ℚ) (xs1 xs2 : List ℚ)
    (h1 : ev1.body.inferences = x1 :: xs1)
    (h2 : ev2.body.inferences = x2 :: xs2)
    (hmax : xs1.foldl max x1 = xs2.foldl max x2) :
    isOkExcept (FilterConfidence.lambda_handler d1 ev1)
      = isOkExcept (FilterConfidence.lambda_handler d2 ev2) := by
  have hm1 := pyMax_cons x1 xs1
  have hm2 := pyMax_cons x2 xs2
  by_cases hc : FilterConfidence.THRESHOLD < xs2.foldl max x2
  · simp [FilterConfidence.lambda_handler, h1, h2, hm1, hm2, hmax, hc,
      isOkExcept]
  · simp [FilterConfidence.lambda_handler, h1, h2, hm1, hm2, hmax, hc,
      isOkExcept]

/-- Witness for C10: `[0.95]` and `[-3, 0.2, 0.95]` (different length and
order, one element outside `[0, 1]`) have equal maxima and get the same
decision. -/
theorem gate_decision_only_max_witness :
    isOkExcept (FilterConfidence.lambda_handler (fun _ => "a")
        ⟨⟨"i1", "b1", "k1", [19/20]⟩⟩)
      = isOkExcept (FilterConfidence.lambda_handler (fun _ => "b")
        ⟨⟨"i2", "b2", "k2", [-3, 1/5, 19/20]⟩⟩) :=
  gate_decision_only_max (fun _ => "a") (fun _ => "b") _ _ _ _ _ _ rfl rfl
    (by norm_num [max_def])

/-- Counterexample to claim C4: on a passing envelope the Gate's success body
is the JSON-serialized string of the event, not the input Envelope itself. -/
theorem gate_passthrough_counterexample :
    FilterConfidence.lambda_handler (fun _ => "serialized")
        ⟨⟨"img", "b", "k", [1/5, 19/20, 1/10]⟩⟩
      = .ok ⟨200, .str "serialized"⟩ ∧
    FilterConfidence.GateBody.str "serialized"
      ≠ .dict ⟨"img", "b", "k", [1/5, 19/20, 1/10]⟩ := by
  constructor
  · exact gate_eval_pass (fun _ => "serialized") _ _ _ rfl
      (by norm_num [FilterConfidence.THRESHOLD, max_def])
  · intro hne
    exact FilterConfidence.GateBody.noConfusion hne

/-- Claim C4 (amended): on a passing envelope the Gate re-emits the input in
JSON-serialized form: statusCode 200 with body the string `json.dumps` of the
unmodified input event (so every envelope field enters the serialization
unchanged), rather than the Envelope object itself. -/
theorem gate_passthrough_serialized
    (dumps : FilterConfidence.GateEvent → String)
    (event : FilterConfidence.GateEvent) (x : ℚ) (xs : List ℚ)
    (h : event.body.inferences = x :: xs)
    (hgt : FilterConfidence.THRESHOLD < xs.foldl max x) :
    FilterConfidence.lambda_handler dumps event
      = .ok ⟨200, .str (dumps event)⟩ := by
  simp [FilterConfidence.lambda_handler, h, pyMax_cons, hgt]

/-- Witness for the amended C4 at scores `[0.2, 0.95, 0.1]`. -/
theorem gate_passthrough_serialized_witness :
    FilterConfidence.lambda_handler (fun e => e.body.s3_key)
        ⟨⟨"imgX", "bX", "kX", [1/5, 19/20, 1/10]⟩⟩
      = .ok ⟨200, .str "kX"⟩ :=
  gate_passthrough_serialized (fun e => e.body.s3_key) _ _ _ rfl
    (by norm_num [FilterConfidence.THRESHOLD, max_def])

/-- Helper: evaluation of the Gate on an event with an empty score list. -/
theorem gate_eval_empty (dumps : FilterConfidence.GateEvent → String)
    (event : FilterConfidence.GateEvent)
    (h : event.body.inferences = []) :
    FilterConfidence.lambda_handler dumps event
      = .error .valueError_empty_max := by
  simp [FilterConfidence.lambda_handler, h, FilterConfidence.pyMax]

/-! ## Claims about the Loader -/

/-- Claim C5: for every `(bucket, key)` pair resolving to stored bytes, the
Loader succeeds with the base64 encoding of those bytes as `image_data` and
an empty inference list, and base64-decoding that payload yields exactly the
stored bytes. -/
theorem loader_roundtrip
    (fetch : String → String →
      Except SerializeImageData.StorageError (List Nat))
    (event : SerializeImageData.LoaderEvent) (stored : List Nat)
    (hfetch : fetch event.s3_bucket event.s3_key = .ok stored)
    (hbytes : ∀ b ∈ stored, b < 256) :
    SerializeImageData.lambda_handler fetch event
        = .ok ⟨200, ⟨.bytes (b2aChars stored), event.s3_bucket,
                     event.s3_key, []⟩⟩ ∧
      pyB64decodeVal (.bytes (b2aChars stored)) = .ok stored := by
  constructor
  · simp [SerializeImageData.lambda_handler, hfetch]
  · simpa [pyB64decodeVal] using a2bLoop_b2aChars stored hbytes []

/-- Witness for C5 at stored bytes `[7, 200, 31]`. -/
theorem loader_roundtrip_witness :
    SerializeImageData.lambda_handler (fun _ _ => .ok [7, 200, 31])
        ⟨"bb", "kk"⟩
      = .ok ⟨200, ⟨.bytes (b2aChars [7, 200, 31]), "bb", "kk", []⟩⟩ ∧
    pyB64decodeVal (.bytes (b2aChars [7, 200, 31])) = .ok [7, 200, 31] :=
  loader_roundtrip (fun _ _ => .ok [7, 200, 31]) ⟨"bb", "kk"⟩ [7, 200, 31]
    rfl (by decide)

/-! ## Claims about the Classifier -/

/-- Claim C6: whenever the Classifier succeeds, the output envelope echoes
the input's `image_data`, `s3_bucket` and `s3_key` unchanged (only the
inference list is new), with status code 200. -/
theorem classifier_frame
    (invoke : String → String → List Nat →
      Except Classifier.InferError (List ScoreItem))
    (event : Classifier.ClassifierEvent) (r : Classifier.ClassifierResult)
    (h : Classifier.lambda_handler invoke event = .ok r) :
    r.body.image_data = event.body.image_data ∧
      r.body.s3_bucket = event.body.s3_bucket ∧
      r.body.s3_key = event.body.s3_key ∧
      r.statusCode = 200 := by
  unfold Classifier.lambda_handler at h
  cases hd : pyB64decodeVal event.body.image_data with
  | error e =>
    simp only [hd] at h
    exact Except.noConfusion h
  | ok image =>
    simp only [hd] at h
    cases hi : invoke Classifier.ENDPOINT_NAME "image/png" image with
    | error e =>
      simp only [hi] at h
      exact Except.noConfusion h
    | ok scores =>
      simp only [hi] at h
      injection h with h'
      subst h'
      exact ⟨rfl, rfl, rfl, rfl⟩

/-- Witness for C6 at a concrete event and capability. -/
theorem classifier_frame_witness :
    ∃ r : Classifier.ClassifierResult,
      Classifier.lambda_handler (fun _ _ _ => .ok [.nonNum "s"])
          ⟨⟨.str ['A', 'A', 'A', 'A'], "b", "k", []⟩⟩ = .ok r ∧
      r.body.image_data = .str ['A', 'A', 'A', 'A'] ∧
      r.body.s3_bucket = "b" ∧ r.body.s3_key = "k" := by
  refine ⟨⟨200, ⟨.str ['A', 'A', 'A', 'A'], "b", "k", [.nonNum "s"]⟩⟩,
    rfl, ?_⟩
  have h := classifier_frame (fun _ _ _ => .ok [.nonNum "s"])
    ⟨⟨.str ['A', 'A', 'A', 'A'], "b", "k", []⟩⟩
    ⟨200, ⟨.str ['A', 'A', 'A', 'A'], "b", "k", [.nonNum "s"]⟩⟩ rfl
  exact ⟨h.1, h.2.1, h.2.2.1⟩

/-- Counterexample to claim C8: the capability returns the structurally
invalid empty score list, and the Classifier nonetheless returns a success
result carrying that empty list as `inferences` instead of failing. -/
theorem classifier_no_validation_counterexample :
    Classifier.lambda_handler (fun _ _ _ => .ok [])
        ⟨⟨.str ['A', 'A', 'A', 'A'], "bkt", "key", []⟩⟩
      = .ok ⟨200, ⟨.str ['A', 'A', 'A', 'A'], "bkt", "key", []⟩⟩ := rfl

/-- Claim C8 (amended): the Classifier performs no structural validation of
the parsed score list: whenever the payload decodes and the capability's
response parses as a list — an empty list or one with non-numeric entries
included — the handler returns success carrying that list verbatim. -/
theorem classifier_no_score_validation
    (invoke : String → String → List Nat →
      Except Classifier.InferError (List ScoreItem))
    (event : Classifier.ClassifierEvent) (image : List Nat)
    (scores : List ScoreItem)
    (hd : pyB64decodeVal event.body.image_data = .ok image)
    (hi : invoke Classifier.ENDPOINT_NAME "image/png" image = .ok scores) :
    Classifier.lambda_handler invoke event
      = .ok ⟨200, ⟨event.body.image_data, event.body.s3_bucket,
                   event.body.s3_key, scores⟩⟩ := by
  simp [Classifier.lambda_handler, hd, hi]

/-- Witness for the amended C8 with a non-numeric score list. -/
theorem classifier_no_score_validation_witness :
    Classifier.lambda_handler (fun _ _ _ => .ok [.nonNum "oops"])
        ⟨⟨.str ['A', 'A', 'A', 'A'], "bkt", "key", []⟩⟩
      = .ok ⟨200, ⟨.str ['A', 'A', 'A', 'A'], "bkt", "key",
                   [.nonNum "oops"]⟩⟩ :=
  classifier_no_score_validation (fun _ _ _ => .ok [.nonNum "oops"])
    ⟨⟨.str ['A', 'A', 'A', 'A'], "bkt", "key", []⟩⟩ [0, 0, 0]
    [.nonNum "oops"] rfl rfl

/-- Counterexample to claim C9: the four-exclamation-marks payload is not
valid base64, yet Python's lenient decoder discards the invalid characters,
so the Classifier does not fail: the inference capability is invoked (the
outcome tracks the capability's result) and the stage succeeds. -/
theorem classifier_lenient_decode_counterexample :
    ¬ validB64 ['!', '!', '!', '!'] ∧
    Classifier.lambda_handler (fun _ _ _ => .ok [.num 1])
        ⟨⟨.str ['!', '!', '!', '!'], "bkt", "key", []⟩⟩
      = .ok ⟨200, ⟨.str ['!', '!', '!', '!'], "bkt", "key", [.num 1]⟩⟩ ∧
    Classifier.lambda_handler (fun _ _ _ => .error .unavailable)
        ⟨⟨.str ['!', '!', '!', '!'], "bkt", "key", []⟩⟩
      = .error (.infer .unavailable) :=
  ⟨not_validB64_bangs, rfl, rfl⟩

/-- Claim C9 (amended): only when the lenient base64 decode of the payload
fails does the Classifier fail before inference — with the wrapped decode
error (the source has no named ContractViolation) — and then the outcome is
independent of the inference capability, which is never invoked; a payload
that is not valid base64 can still decode leniently, and then the capability
is invoked. -/
theorem classifier_decode_failure_no_invoke
    (invoke invoke2 : String → String → List Nat →
      Except Classifier.InferError (List ScoreItem))
    (event : Classifier.ClassifierEvent) (e : B64Error)
    (hd : pyB64decodeVal event.body.image_data = .error e) :
    Classifier.lambda_handler invoke event = .error (.binascii e) ∧
      Classifier.lambda_handler invoke event
        = Classifier.lambda_handler invoke2 event := by
  constructor
  · simp [Classifier.lambda_handler, hd]
  · simp [Classifier.lambda_handler, hd]

/-- Witness for the amended C9 at the payload `"abc"`, whose lenient decode
fails with an invalid-padding error under two different capabilities. -/
theorem classifier_decode_failure_no_invoke_witness :
    Classifier.lambda_handler (fun _ _ _ => .ok [.num 1])
        ⟨⟨.str ['a', 'b', 'c'], "bkt", "key", []⟩⟩
      = .error (.binascii .invalidPadding) ∧
    Classifier.lambda_handler (fun _ _ _ => .ok [.num 1])
        ⟨⟨.str ['a', 'b', 'c'], "bkt", "key", []⟩⟩
      = Classifier.lambda_handler (fun _ _ _ => .error .unavailable)
        ⟨⟨.str ['a', 'b', 'c'], "bkt", "key", []⟩⟩ :=
  classifier_decode_failure_no_invoke (fun _ _ _ => .ok [.num 1])
    (fun _ _ _ => .error .unavailable)
    ⟨⟨.str ['a', 'b', 'c'], "bkt", "key", []⟩⟩ .invalidPadding rfl

/-! ## Claim about the success shape of all three stages -/

/-- Counterexample to claim C3: the Gate's success result has body the
JSON-serialized string of the input event, not the Envelope object itself. -/
theorem stage_shapes_counterexample :
    FilterConfidence.lambda_handler (fun _ => "dumped")
        ⟨⟨"payload", "bb", "kk", [99/100]⟩⟩
      = .ok ⟨200, .str "dumped"⟩ ∧
    FilterConfidence.GateBody.str "dumped"
      ≠ .dict ⟨"payload", "bb", "kk", [99/100]⟩ := by
  constructor
  · exact gate_eval_pass (fun _ => "dumped") _ _ _ rfl
      (by norm_num [FilterConfidence.THRESHOLD, max_def])
  · intro hne
    exact FilterConfidence.GateBody.noConfusion hne

/-- Claim C3 (amended): each stage on success returns status code 200, but
the bodies differ from the claimed literal shape: the Loader's body is the
Envelope whose `image_data` is a base64 BYTES object (`b64encode` returns
bytes, not a text string) with empty `inferences`; the Classifier's body is
the Envelope echoing the input payload with the capability's parsed list
attached; the Gate's body is the JSON-serialized string of the whole input
event, not the Envelope object. -/
theorem stage_success_shapes :
    (∀ (fetch : String → String →
          Except SerializeImageData.StorageError (List Nat))
       (event : SerializeImageData.LoaderEvent) (imageBytes : List Nat),
        fetch event.s3_bucket event.s3_key = .ok imageBytes →
        SerializeImageData.lambda_handler fetch event
          = .ok ⟨200, ⟨.bytes (b2aChars imageBytes), event.s3_bucket,
                       event.s3_key, []⟩⟩) ∧
    (∀ (invoke : String → String → List Nat →
          Except Classifier.InferError (List ScoreItem))
       (event : Classifier.ClassifierEvent) (r : Classifier.ClassifierResult),
        Classifier.lambda_handler invoke event = .ok r →
        r.statusCode = 200 ∧ r.body.image_data = event.body.image_data ∧
          r.body.s3_bucket = event.body.s3_bucket ∧
          r.body.s3_key = event.body.s3_key) ∧
    (∀ (dumps : FilterConfidence.GateEvent → String)
       (event : FilterConfidence.GateEvent) (r : FilterConfidence.GateResult),
        FilterConfidence.lambda_handler dumps event = .ok r →
        r.statusCode = 200 ∧ r.body = .str (dumps event)) := by
  refine ⟨?_, ?_, ?_⟩
  · intro fetch event imageBytes hfetch
    simp [SerializeImageData.lambda_handler, hfetch]
  · intro invoke event r h
    unfold Classifier.lambda_handler at h
    cases hd : pyB64decodeVal event.body.image_data with
    | error e =>
      simp only [hd] at h
      exact Except.noConfusion h
    | ok image =>
      simp only [hd] at h
      cases hi : invoke Classifier.ENDPOINT_NAME "image/png" image with
      | error e =>
        simp only [hi] at h
        exact Except.noConfusion h
      | ok scores =>
        simp only [hi] at h
        injection h with h'
        subst h'
        exact ⟨rfl, rfl, rfl, rfl⟩
  · intro dumps event r h
    cases hinf : event.body.inferences with
    | nil =>
      rw [gate_eval_empty dumps event hinf] at h
      exact Except.noConfusion h
    | cons x xs =>
      rcases le_or_lt (xs.foldl max x) FilterConfidence.THRESHOLD with hle | hgt
      · rw [gate_eval_fail dumps event x xs hinf hle] at h
        exact Except.noConfusion h
      · rw [gate_eval_pass dumps event x xs hinf hgt] at h
        injection h with h'
        subst h'
        exact ⟨rfl, rfl⟩

/-- Witness for the amended C3, one concrete success per stage. -/
theorem stage_success_shapes_witness :
    (SerializeImageData.lambda_handler (fun _ _ => .ok [1, 2]) ⟨"wb", "wk"⟩
      = .ok ⟨200, ⟨.bytes (b2aChars [1, 2]), "wb", "wk", []⟩⟩) ∧
    (∃ r : Classifier.ClassifierResult,
      Classifier.lambda_handler (fun _ _ _ => .ok [.num 0])
          ⟨⟨.str ['B', 'B', 'B', 'B'], "cb", "ck", []⟩⟩ = .ok r ∧
      r.statusCode = 200 ∧
      r.body.image_data = .str ['B', 'B', 'B', 'B'] ∧
      r.body.s3_bucket = "cb" ∧ r.body.s3_key = "ck") ∧
    (∃ r : FilterConfidence.GateResult,
      FilterConfidence.lambda_handler (fun _ => "W")
          ⟨⟨"p", "gb", "gk", [24/25]⟩⟩ = .ok r ∧
      r.statusCode = 200 ∧ r.body = .str "W") := by
  refine ⟨stage_success_shapes.1 (fun _ _ => .ok [1, 2]) ⟨"wb", "wk"⟩
    [1, 2] rfl, ?_, ?_⟩
  · refine ⟨⟨200, ⟨.str ['B', 'B', 'B', 'B'], "cb", "ck", [.num 0]⟩⟩,
      rfl, ?_⟩
    have h := stage_success_shapes.2.1 (fun _ _ _ => .ok [.num 0])
      ⟨⟨.str ['B', 'B', 'B', 'B'], "cb", "ck", []⟩⟩
      ⟨200, ⟨.str ['B', 'B', 'B', 'B'], "cb", "ck", [.num 0]⟩⟩ rfl
    exact ⟨h.1, h.2.1, h.2.2.1, h.2.2.2⟩
  · have hW : FilterConfidence.lambda_handler (fun _ => "W")
        ⟨⟨"p", "gb", "gk", [24/25]⟩⟩ = .ok ⟨200, .str "W"⟩ :=
      gate_eval_pass (fun _ => "W") _ _ _ rfl
        (by norm_num [FilterConfidence.THRESHOLD, max_def])
    have h := stage_success_shapes.2.2 (fun _ => "W")
      ⟨⟨"p", "gb", "gk", [24/25]⟩⟩ ⟨200, .str "W"⟩ hW
    exact ⟨⟨200, .str "W"⟩, hW, h.1, h.2⟩
